import Mathlib

/-!
Shallow embedding of the multiplex-tonic-hyper crate (src/lib.rs and
src/make.rs) and proofs about its routing, readiness and body-forwarding
behaviour.

Rust futures, tower services and HTTP bodies are stateful objects driven
by repeated polling; we embed them as explicit state-passing step
functions `state -> state x Poll result`.  Machine-level details that the
claims do not touch (wakers, pinning) are abstracted away; the control
flow of every embedded function mirrors the Rust source line by line.
-/

set_option autoImplicit false

namespace Mth

/-- Rust `std::task::Poll`. -/
inductive Poll (α : Type) : Type where
  | ready (a : α)
  | pending
deriving Repr, DecidableEq

/-- `Poll::map`. -/
def Poll.map {α β : Type} (f : α → β) : Poll α → Poll β
  | .ready a => .ready (f a)
  | .pending => .pending

/-- The crate models errors as `Box<dyn Error + Send + Sync>`; we model a
boxed error by the message it carries. -/
abbrev BoxedError : Type := String

instance {ε α : Type} [DecidableEq ε] [DecidableEq α] : DecidableEq (Except ε α) := fun x y =>
  match x, y with
  | .ok a, .ok b =>
    if h : a = b then .isTrue (by rw [h]) else .isFalse (by intro hc; cases hc; exact h rfl)
  | .ok _, .error _ => .isFalse (by intro hc; cases hc)
  | .error _, .ok _ => .isFalse (by intro hc; cases hc)
  | .error e, .error e' =>
    if h : e = e' then .isTrue (by rw [h]) else .isFalse (by intro hc; cases hc; exact h rfl)

/-- `Poll<Result<T, E>>::map_err` (maps the error of a ready result). -/
def Poll.map_err {α ε ε' : Type} (f : ε → ε') : Poll (Except ε α) → Poll (Except ε' α)
  | .ready (.ok a) => .ready (.ok a)
  | .ready (.error e) => .ready (.error (f e))
  | .pending => .pending

/-- `Poll<Result<T, E>>::map_ok` (maps the value of a ready result). -/
def Poll.map_ok {α β ε : Type} (f : α → β) : Poll (Except ε α) → Poll (Except ε β)
  | .ready (.ok a) => .ready (.ok (f a))
  | .ready (.error e) => .ready (.error e)
  | .pending => .pending

/-- The `?` operator on a `Poll<Result<T, E>>` inside a function returning
`Poll<Result<U, E>>` (the `Try` impl for `Poll` in the Rust core library):
a ready error short-circuits the enclosing function with that error, a
ready value continues as `Poll.ready`, and pending continues as
`Poll.pending`. -/
def pollTry {α ε : Type} : Poll (Except ε α) → Except ε (Poll α)
  | .ready (.ok a) => .ok (.ready a)
  | .ready (.error e) => .error e
  | .pending => .ok .pending

/-- `Poll<Option<Result<T, E>>>::map_ok` (used by `poll_data`). -/
def pollOptionMapOk {α β ε : Type} (f : α → β) :
    Poll (Option (Except ε α)) → Poll (Option (Except ε β))
  | .ready (some (.ok a)) => .ready (some (.ok (f a)))
  | .ready (some (.error e)) => .ready (some (.error e))
  | .ready none => .ready none
  | .pending => .pending

/-- `Poll<Option<Result<T, E>>>::map_err` (used by `poll_data`). -/
def pollOptionMapErr {α ε ε' : Type} (f : ε → ε') :
    Poll (Option (Except ε α)) → Poll (Option (Except ε' α))
  | .ready (some (.ok a)) => .ready (some (.ok a))
  | .ready (some (.error e)) => .ready (some (.error (f e)))
  | .ready none => .ready none
  | .pending => .pending

/-- hyper `Bytes` and `HeaderValue` contents: raw byte strings. -/
abbrev Bytes : Type := List UInt8

/-- hyper `HeaderMap`: association list from (normalized, lowercase) header
names to byte-string values; `headerGet` below returns the first value for
a name, as `HeaderMap::get` does. -/
abbrev HeaderMap : Type := List (String × Bytes)

/-- `HeaderMap::get`: first value stored under the given name. -/
def headerGet (hs : HeaderMap) (name : String) : Option Bytes :=
  (hs.find? (fun p => p.1 == name)).map (fun p => p.2)

/-- Byte encoding of an ASCII string literal. -/
def bytesOfAscii (s : String) : Bytes :=
  s.toList.map (fun c => UInt8.ofNat c.toNat)

/-- The bytes of `b"application/grpc"` that `Multiplexer::call` matches
against the content-type value. -/
def applicationGrpc : Bytes := bytesOfAscii "application/grpc"

/-- http `Request`: headers plus an opaque body (method and URI are never
inspected by the crate, so they are omitted). -/
structure Request (B : Type) : Type where
  headers : HeaderMap
  body : B
deriving Repr, DecidableEq

/-- http `Response`: status, headers, body. -/
structure Response (B : Type) : Type where
  status : Nat
  headers : HeaderMap
  body : B
deriving Repr, DecidableEq

/-- `http::Response::map`: maps the body, keeps status and headers. -/
def Response.map {B B' : Type} (f : B → B') (r : Response B) : Response B' :=
  { status := r.status, headers := r.headers, body := f r.body }

/-- The `Multiplexer` struct of src/lib.rs: the two inner services. -/
structure Multiplexer (Grpc Web : Type) : Type where
  grpc : Grpc
  web : Web
deriving Repr, DecidableEq

/-- `Multiplexer::new`. -/
def Multiplexer.new {Grpc Web : Type} (grpc : Grpc) (web : Web) : Multiplexer Grpc Web :=
  { grpc := grpc, web := web }

/-- `EncapsulatedFuture`: tagged union of the two inner futures. -/
inductive EncapsulatedFuture (GrpcFuture WebFuture : Type) : Type where
  | Grpc (f : GrpcFuture)
  | Web (f : WebFuture)
deriving Repr, DecidableEq

/-- Whether an `EncapsulatedFuture` is the Grpc variant. -/
def EncapsulatedFuture.isGrpc {GF WF : Type} : EncapsulatedFuture GF WF → Bool
  | .Grpc _ => true
  | .Web _ => false

/-- `EncapsulatedBody`: tagged union of the two inner bodies. -/
inductive EncapsulatedBody (GrpcBody WebBody : Type) : Type where
  | Grpc (b : GrpcBody)
  | Web (b : WebBody)
deriving Repr, DecidableEq

/-- Whether an `EncapsulatedBody` is the Grpc variant. -/
def EncapsulatedBody.isGrpc {GB WB : Type} : EncapsulatedBody GB WB → Bool
  | .Grpc _ => true
  | .Web _ => false

/-- `EncapsulatedBody::map_grpc`: wrap a response body in the Grpc variant. -/
def EncapsulatedBody.map_grpc {GrpcBody WebBody : Type} (response : Response GrpcBody) :
    Response (EncapsulatedBody GrpcBody WebBody) :=
  response.map EncapsulatedBody.Grpc

/-- `EncapsulatedBody::map_web`: wrap a response body in the Web variant. -/
def EncapsulatedBody.map_web {GrpcBody WebBody : Type} (response : Response WebBody) :
    Response (EncapsulatedBody GrpcBody WebBody) :=
  response.map EncapsulatedBody.Web

/-- The routing predicate computed at the top of `Multiplexer::call`
(src/lib.rs lines 127-131):
`req.headers().get("content-type").map(|x| x.as_bytes().starts_with(b"application/grpc")).unwrap_or_default()`. -/
def isGrpcRequest {B : Type} (req : Request B) : Bool :=
  ((headerGet req.headers "content-type").map
    (fun x => applicationGrpc.isPrefixOf x)).getD false

/-- `Multiplexer::poll_ready` (src/lib.rs lines 113-124).  The two inner
services are stateful; their `poll_ready` methods are the step functions
`pollGrpc` and `pollWeb`, and `cg`, `cw` are the `Into<BoxedError>`
conversions of their error types.  The `?` after the grpc check
(`self.grpc.poll_ready(cx).map_err(to_boxed)?`) returns early on a ready
error, before the web check runs; the pure embedding renders the single
Rust call by its value, projected twice. -/
def Multiplexer.poll_ready {Grpc Web εg εw : Type}
    (pollGrpc : Grpc → Grpc × Poll (Except εg Unit))
    (pollWeb : Web → Web × Poll (Except εw Unit))
    (cg : εg → BoxedError) (cw : εw → BoxedError)
    (self : Multiplexer Grpc Web) :
    Multiplexer Grpc Web × Poll (Except BoxedError Unit) :=
  match pollTry (Poll.map_err cg (pollGrpc self.grpc).2) with
  | .error e => ({ self with grpc := (pollGrpc self.grpc).1 }, .ready (.error e))
  | .ok grpc =>
    match pollTry (Poll.map_err cw (pollWeb self.web).2) with
    | .error e =>
      ({ grpc := (pollGrpc self.grpc).1, web := (pollWeb self.web).1 }, .ready (.error e))
    | .ok web =>
      ({ grpc := (pollGrpc self.grpc).1, web := (pollWeb self.web).1 },
        match grpc, web with
        | .ready _, .ready _ => .ready (.ok ())
        | _, _ => .pending)

/-- `Multiplexer::call` (src/lib.rs lines 126-137).  The inner services
may update their state when `call` is invoked on them, so the inner call
methods are step functions returning the new service state and the
future. -/
def Multiplexer.call {Grpc Web B GrpcFuture WebFuture : Type}
    (callGrpc : Grpc → Request B → Grpc × GrpcFuture)
    (callWeb : Web → Request B → Web × WebFuture)
    (self : Multiplexer Grpc Web) (req : Request B) :
    Multiplexer Grpc Web × EncapsulatedFuture GrpcFuture WebFuture :=
  if isGrpcRequest req then
    ({ self with grpc := (callGrpc self.grpc req).1 },
      .Grpc (callGrpc self.grpc req).2)
  else
    ({ self with web := (callWeb self.web req).1 },
      .Web (callWeb self.web req).2)

/-- `EncapsulatedFuture::poll` (src/lib.rs lines 167-178): project the one
stored inner future, poll it, `map_ok` through the matching body wrapper
and `map_err` through `to_boxed`. -/
def EncapsulatedFuture.poll {GF WF GB WB εg εw : Type}
    (pollGrpc : GF → GF × Poll (Except εg (Response GB)))
    (pollWeb : WF → WF × Poll (Except εw (Response WB)))
    (cg : εg → BoxedError) (cw : εw → BoxedError) :
    EncapsulatedFuture GF WF →
      EncapsulatedFuture GF WF × Poll (Except BoxedError (Response (EncapsulatedBody GB WB)))
  | .Grpc future =>
    (.Grpc (pollGrpc future).1,
      Poll.map_err cg (Poll.map_ok EncapsulatedBody.map_grpc (pollGrpc future).2))
  | .Web future =>
    (.Web (pollWeb future).1,
      Poll.map_err cw (Poll.map_ok EncapsulatedBody.map_web (pollWeb future).2))

/-- `EncapsulatedBody::poll_data` (src/lib.rs lines 217-225): project the
one stored inner body, poll it for data, `map_ok` through `into_data`
(the `Into<Bytes>` conversions `dg`, `dw`) and `map_err` through
`to_boxed`. -/
def EncapsulatedBody.poll_data {GB WB Dg Dw εg εw : Type}
    (pollGrpc : GB → GB × Poll (Option (Except εg Dg)))
    (pollWeb : WB → WB × Poll (Option (Except εw Dw)))
    (cg : εg → BoxedError) (cw : εw → BoxedError)
    (dg : Dg → Bytes) (dw : Dw → Bytes) :
    EncapsulatedBody GB WB →
      EncapsulatedBody GB WB × Poll (Option (Except BoxedError Bytes))
  | .Grpc body =>
    (.Grpc (pollGrpc body).1, pollOptionMapErr cg (pollOptionMapOk dg (pollGrpc body).2))
  | .Web body =>
    (.Web (pollWeb body).1, pollOptionMapErr cw (pollOptionMapOk dw (pollWeb body).2))

/-- `EncapsulatedBody::poll_trailers` (src/lib.rs lines 227-235): project
the one stored inner body, poll its trailers, `map_err` through
`to_boxed`. -/
def EncapsulatedBody.poll_trailers {GB WB εg εw : Type}
    (pollGrpc : GB → GB × Poll (Except εg (Option HeaderMap)))
    (pollWeb : WB → WB × Poll (Except εw (Option HeaderMap)))
    (cg : εg → BoxedError) (cw : εw → BoxedError) :
    EncapsulatedBody GB WB →
      EncapsulatedBody GB WB × Poll (Except BoxedError (Option HeaderMap))
  | .Grpc body => (.Grpc (pollGrpc body).1, Poll.map_err cg (pollGrpc body).2)
  | .Web body => (.Web (pollWeb body).1, Poll.map_err cw (pollWeb body).2)

/-- hyper `body::SizeHint`: lower bound and optional upper bound; the
default is lower 0, no upper bound. -/
structure SizeHint : Type where
  lower : Nat := 0
  upper : Option Nat := none
deriving Repr, DecidableEq

/-- The `HttpBody` impl for `EncapsulatedBody` (src/lib.rs lines 204-236)
does not override the trait method `is_end_stream`, so hyper supplies the
trait default, which returns `false`. -/
def EncapsulatedBody.is_end_stream {GB WB : Type} (_ : EncapsulatedBody GB WB) : Bool :=
  false

/-- The `HttpBody` impl for `EncapsulatedBody` does not override the trait
method `size_hint` either, so hyper supplies the trait default, which
returns `SizeHint::default()`. -/
def EncapsulatedBody.size_hint {GB WB : Type} (_ : EncapsulatedBody GB WB) : SizeHint :=
  {}

/-- The `MakeMultiplexer` struct of src/make.rs: the two inner make
services. -/
structure MakeMultiplexer (MakeGrpc MakeWeb : Type) : Type where
  make_grpc : MakeGrpc
  make_web : MakeWeb
deriving Repr, DecidableEq

/-- `MakeMultiplexer::new`. -/
def MakeMultiplexer.new {MakeGrpc MakeWeb : Type} (make_grpc : MakeGrpc) (make_web : MakeWeb) :
    MakeMultiplexer MakeGrpc MakeWeb :=
  { make_grpc := make_grpc, make_web := make_web }

/-- `MakeMultiplexer::poll_ready` (src/make.rs lines 46-56).  A tuple is
evaluated left to right, so the `?` on the grpc element returns before the
web element is evaluated; the final match lists its four arms exactly as
the source does. -/
def MakeMultiplexer.poll_ready {MakeGrpc MakeWeb εg εw : Type}
    (pollGrpc : MakeGrpc → MakeGrpc × Poll (Except εg Unit))
    (pollWeb : MakeWeb → MakeWeb × Poll (Except εw Unit))
    (cg : εg → BoxedError) (cw : εw → BoxedError)
    (self : MakeMultiplexer MakeGrpc MakeWeb) :
    MakeMultiplexer MakeGrpc MakeWeb × Poll (Except BoxedError Unit) :=
  match pollTry (Poll.map_err cg (pollGrpc self.make_grpc).2) with
  | .error e => ({ self with make_grpc := (pollGrpc self.make_grpc).1 }, .ready (.error e))
  | .ok grpc =>
    match pollTry (Poll.map_err cw (pollWeb self.make_web).2) with
    | .error e =>
      ({ make_grpc := (pollGrpc self.make_grpc).1, make_web := (pollWeb self.make_web).1 },
        .ready (.error e))
    | .ok web =>
      ({ make_grpc := (pollGrpc self.make_grpc).1, make_web := (pollWeb self.make_web).1 },
        match grpc, web with
        | .ready _, .ready _ => .ready (.ok ())
        | .ready _, .pending => .pending
        | .pending, .ready _ => .pending
        | .pending, .pending => .pending)

/-- `futures::future::MaybeDone` restricted to the two states `Join` uses
while still polling (`Gone` only arises after the join has returned
Ready, which none of the claims reach). -/
inductive MaybeDone (F A : Type) : Type where
  | future (f : F)
  | done (a : A)
deriving Repr, DecidableEq

/-- One poll of a `MaybeDone`: an unfinished future is polled and its
ready output stored; a finished one is left alone. -/
def MaybeDone.poll {F A : Type} (pollF : F → F × Poll A) : MaybeDone F A → MaybeDone F A
  | .future f =>
    match pollF f with
    | (f', .pending) => .future f'
    | (_, .ready a) => .done a
  | .done a => .done a

/-- Whether a `MaybeDone` holds its output. -/
def MaybeDone.isDone {F A : Type} : MaybeDone F A → Bool
  | .future _ => false
  | .done _ => true

/-- `futures::future::Join`: a pair of `MaybeDone` values. -/
structure Join (FA FB A B : Type) : Type where
  left : MaybeDone FA A
  right : MaybeDone FB B
deriving Repr, DecidableEq

/-- `Join::poll`: poll both sides (each side is skipped once done), and
return Ready with both outputs only when both sides are done. -/
def Join.poll {FA FB A B : Type} (pollA : FA → FA × Poll A) (pollB : FB → FB × Poll B)
    (self : Join FA FB A B) : Join FA FB A B × Poll (A × B) :=
  match MaybeDone.poll pollA self.left, MaybeDone.poll pollB self.right with
  | .done a, .done b => ({ left := .done a, right := .done b }, .ready (a, b))
  | l, r => ({ left := l, right := r }, .pending)

/-- The `MakeMultiplexerFuture` struct of src/make.rs: a join of the two
inner build futures.  `OG` and `OW` are the output types of the two
futures. -/
structure MakeMultiplexerFuture (MakeGrpcFuture MakeWebFuture OG OW : Type) : Type where
  inner : Join MakeGrpcFuture MakeWebFuture OG OW
deriving Repr, DecidableEq

/-- `MakeMultiplexerFuture::new`: `futures::future::join` wraps both
futures in the unfinished `MaybeDone` state. -/
def MakeMultiplexerFuture.new {FG FW OG OW : Type} (make_grpc_future : FG)
    (make_web_future : FW) : MakeMultiplexerFuture FG FW OG OW :=
  { inner := { left := .future make_grpc_future, right := .future make_web_future } }

/-- Poll outcome of a Rust future whose body may panic.  The source of
`MakeMultiplexerFuture::poll` reaches `todo!()` (a panic) on every joined
output other than `(Ok, Ok)`, so its embedding needs a third outcome. -/
inductive PollResult (α : Type) : Type where
  | ready (a : α)
  | pending
  | panicked
deriving Repr, DecidableEq

/-- `MakeMultiplexerFuture::poll` (src/make.rs lines 99-112): poll the
inner join; when it is ready with `(Ok(grpc), Ok(web))` produce the
multiplexer; every other ready output hits `_ => todo!()` and panics (the
arms returning the inner errors are commented out in the source, so the
`Into<BoxedError>` conversions are never used). -/
def MakeMultiplexerFuture.poll {FG FW Grpc Web εg εw : Type}
    (pollGrpc : FG → FG × Poll (Except εg Grpc))
    (pollWeb : FW → FW × Poll (Except εw Web))
    (self : MakeMultiplexerFuture FG FW (Except εg Grpc) (Except εw Web)) :
    MakeMultiplexerFuture FG FW (Except εg Grpc) (Except εw Web) ×
      PollResult (Except BoxedError (Multiplexer Grpc Web)) :=
  match Join.poll pollGrpc pollWeb self.inner with
  | (inner', .ready (.ok grpc, .ok web)) =>
    ({ inner := inner' }, .ready (.ok (Multiplexer.new grpc web)))
  | (inner', .ready _) => ({ inner := inner' }, .panicked)
  | (inner', .pending) => ({ inner := inner' }, .pending)

/-- `MakeMultiplexer::call` (src/make.rs lines 58-62): build both inner
futures, the grpc one from `req.clone()` and the web one from `req` (the
clone of a value is the value itself in the pure embedding), and join
them. -/
def MakeMultiplexer.call {MakeGrpc MakeWeb Target FG FW OG OW : Type}
    (callGrpc : MakeGrpc → Target → MakeGrpc × FG)
    (callWeb : MakeWeb → Target → MakeWeb × FW)
    (self : MakeMultiplexer MakeGrpc MakeWeb) (req : Target) :
    MakeMultiplexer MakeGrpc MakeWeb × MakeMultiplexerFuture FG FW OG OW :=
  ({ make_grpc := (callGrpc self.make_grpc req).1, make_web := (callWeb self.make_web req).1 },
    MakeMultiplexerFuture.new (callGrpc self.make_grpc req).2 (callWeb self.make_web req).2)

/-! Concrete instances used to evaluate the embedding: a future that is
ready after a fixed number of polls, a body backed by a list of chunks,
and small services for the readiness claims. -/

/-- A future that returns `value` on the poll after `delay` pending
polls, modelling a timer or delayed factory. -/
structure TimedFut (α : Type) : Type where
  delay : Nat
  value : α
deriving Repr, DecidableEq

/-- Poll a `TimedFut`: count the delay down, then be ready. -/
def TimedFut.poll {α : Type} : TimedFut α → TimedFut α × Poll α
  | { delay := 0, value := v } => ({ delay := 0, value := v }, .ready v)
  | { delay := n + 1, value := v } => ({ delay := n, value := v }, .pending)

/-- A streaming body backed by a list of chunk results followed by a
trailer result: each `poll_data` yields the next chunk, then end of
stream. -/
structure ListBody (D ε : Type) : Type where
  chunks : List (Except ε D)
  trailerResult : Except ε (Option HeaderMap)
deriving Repr, DecidableEq

/-- `poll_data` of a `ListBody`: pop the next chunk, or report end of
stream. -/
def ListBody.poll_data {D ε : Type} : ListBody D ε → ListBody D ε × Poll (Option (Except ε D))
  | { chunks := [], trailerResult := t } =>
    ({ chunks := [], trailerResult := t }, .ready none)
  | { chunks := c :: rest, trailerResult := t } =>
    ({ chunks := rest, trailerResult := t }, .ready (some c))

/-- `poll_trailers` of a `ListBody`: report the stored trailer result. -/
def ListBody.poll_trailers {D ε : Type} (b : ListBody D ε) :
    ListBody D ε × Poll (Except ε (Option HeaderMap)) :=
  (b, .ready b.trailerResult)

/-- Drain an `EncapsulatedBody` by repeatedly calling its `poll_data`,
collecting every ready chunk result until end of stream, bounded by
`fuel` polls. -/
def drainEncapsulated {GB WB Dg Dw εg εw : Type}
    (pollGrpc : GB → GB × Poll (Option (Except εg Dg)))
    (pollWeb : WB → WB × Poll (Option (Except εw Dw)))
    (cg : εg → BoxedError) (cw : εw → BoxedError)
    (dg : Dg → Bytes) (dw : Dw → Bytes) :
    Nat → EncapsulatedBody GB WB → List (Except BoxedError Bytes)
  | 0, _ => []
  | fuel + 1, b =>
    match EncapsulatedBody.poll_data pollGrpc pollWeb cg cw dg dw b with
    | (b', .ready (some c)) => c :: drainEncapsulated pollGrpc pollWeb cg cw dg dw fuel b'
    | (_, .ready none) => []
    | (b', .pending) => drainEncapsulated pollGrpc pollWeb cg cw dg dw fuel b'

/-- Iterate `poll_data` on an `EncapsulatedBody`, keeping only the body
state. -/
def iterateBody {GB WB Dg Dw εg εw : Type}
    (pollGrpc : GB → GB × Poll (Option (Except εg Dg)))
    (pollWeb : WB → WB × Poll (Option (Except εw Dw)))
    (cg : εg → BoxedError) (cw : εw → BoxedError)
    (dg : Dg → Bytes) (dw : Dw → Bytes) :
    Nat → EncapsulatedBody GB WB → EncapsulatedBody GB WB
  | 0, b => b
  | n + 1, b =>
    iterateBody pollGrpc pollWeb cg cw dg dw n
      (EncapsulatedBody.poll_data pollGrpc pollWeb cg cw dg dw b).1

/-- A service whose readiness check always fails (the `ErrorService` of
the repository test suite). -/
def errReadySvc : Unit → Unit × Poll (Except String Unit) :=
  fun _ => ((), .ready (.error "This service always error"))

/-- A service whose readiness check always succeeds, counting in its
state how many times it has been invoked. -/
def countingSvc : Nat → Nat × Poll (Except String Unit) :=
  fun n => (n + 1, .ready (.ok ()))

/-- A service call that ignores its request and returns a unit future
(used to evaluate routing on concrete requests). -/
def unitSvcCall : Unit → Request Unit → Unit × Unit := fun _ _ => ((), ())

/-- A concrete request carrying `Content-Type: application/grpc+proto`. -/
def grpcReq : Request Unit :=
  { headers := [("content-type", bytesOfAscii "application/grpc+proto")], body := () }

/-- A concrete request carrying `Content-Type: text/html`. -/
def htmlReq : Request Unit :=
  { headers := [("content-type", bytesOfAscii "text/html")], body := () }

/-- A concrete immediately-ready handler future returning a 200 response
with a unit body. -/
def okRespFut : TimedFut (Except String (Response Unit)) :=
  { delay := 0, value := .ok { status := 200, headers := [("server", bytesOfAscii "x")], body := () } }

/-- A concrete immediately-ready handler future that fails. -/
def errRespFut : TimedFut (Except String (Response Unit)) :=
  { delay := 0, value := .error "handler failed" }

/-- Join of two immediately successful build futures. -/
def joinFutOkOk : MakeMultiplexerFuture (TimedFut (Except String String))
    (TimedFut (Except String String)) (Except String String) (Except String String) :=
  MakeMultiplexerFuture.new { delay := 0, value := .ok "grpc handler" }
    { delay := 0, value := .ok "web handler" }

/-- Join in which only the web-side build future fails. -/
def grpcOkWebErrFut : MakeMultiplexerFuture (TimedFut (Except String String))
    (TimedFut (Except String String)) (Except String String) (Except String String) :=
  MakeMultiplexerFuture.new { delay := 0, value := .ok "grpc handler" }
    { delay := 0, value := .error "web factory failed" }

/-- Join in which only the grpc-side build future fails. -/
def grpcErrWebOkFut : MakeMultiplexerFuture (TimedFut (Except String String))
    (TimedFut (Except String String)) (Except String String) (Except String String) :=
  MakeMultiplexerFuture.new { delay := 0, value := .error "grpc factory failed" }
    { delay := 0, value := .ok "web handler" }

/-! # Theorems -/

theorem mux_poll_ready_grpc_error {Grpc Web εg εw : Type}
    (pollGrpc : Grpc → Grpc × Poll (Except εg Unit))
    (pollWeb : Web → Web × Poll (Except εw Unit))
    (cg : εg → BoxedError) (cw : εw → BoxedError) (m : Multiplexer Grpc Web)
    (e : εg) (hg : (pollGrpc m.grpc).2 = .ready (.error e)) :
    Multiplexer.poll_ready pollGrpc pollWeb cg cw m
      = ({ m with grpc := (pollGrpc m.grpc).1 }, .ready (.error (cg e))) := by
  simp [Multiplexer.poll_ready, hg, Poll.map_err, pollTry]

theorem mux_poll_ready_web_error {Grpc Web εg εw : Type}
    (pollGrpc : Grpc → Grpc × Poll (Except εg Unit))
    (pollWeb : Web → Web × Poll (Except εw Unit))
    (cg : εg → BoxedError) (cw : εw → BoxedError) (m : Multiplexer Grpc Web)
    (hg : ∀ e', (pollGrpc m.grpc).2 ≠ .ready (.error e'))
    (e : εw) (hw : (pollWeb m.web).2 = .ready (.error e)) :
    Multiplexer.poll_ready pollGrpc pollWeb cg cw m
      = ({ grpc := (pollGrpc m.grpc).1, web := (pollWeb m.web).1 }, .ready (.error (cw e))) := by
  cases hgp : (pollGrpc m.grpc).2 with
  | ready a =>
    cases a with
    | ok u => simp [Multiplexer.poll_ready, hgp, hw, Poll.map_err, pollTry]
    | error e' => exact absurd hgp (hg e')
  | pending => simp [Multiplexer.poll_ready, hgp, hw, Poll.map_err, pollTry]

theorem mux_poll_ready_state_no_grpc_error {Grpc Web εg εw : Type}
    (pollGrpc : Grpc → Grpc × Poll (Except εg Unit))
    (pollWeb : Web → Web × Poll (Except εw Unit))
    (cg : εg → BoxedError) (cw : εw → BoxedError) (m : Multiplexer Grpc Web)
    (hg : ∀ e', (pollGrpc m.grpc).2 ≠ .ready (.error e')) :
    (Multiplexer.poll_ready pollGrpc pollWeb cg cw m).1
      = { grpc := (pollGrpc m.grpc).1, web := (pollWeb m.web).1 } := by
  cases hgp : (pollGrpc m.grpc).2 with
  | ready a =>
    cases a with
    | ok u =>
      cases hwp : (pollWeb m.web).2 with
      | ready b =>
        cases b <;> simp [Multiplexer.poll_ready, hgp, hwp, Poll.map_err, pollTry]
      | pending => simp [Multiplexer.poll_ready, hgp, hwp, Poll.map_err, pollTry]
    | error e' => exact absurd hgp (hg e')
  | pending =>
    cases hwp : (pollWeb m.web).2 with
    | ready b =>
      cases b <;> simp [Multiplexer.poll_ready, hgp, hwp, Poll.map_err, pollTry]
    | pending => simp [Multiplexer.poll_ready, hgp, hwp, Poll.map_err, pollTry]

theorem mux_poll_ready_ready_iff {Grpc Web εg εw : Type}
    (pollGrpc : Grpc → Grpc × Poll (Except εg Unit))
    (pollWeb : Web → Web × Poll (Except εw Unit))
    (cg : εg → BoxedError) (cw : εw → BoxedError) (m : Multiplexer Grpc Web) :
    (Multiplexer.poll_ready pollGrpc pollWeb cg cw m).2 = .ready (.ok ())
      ↔ (pollGrpc m.grpc).2 = .ready (.ok ()) ∧ (pollWeb m.web).2 = .ready (.ok ()) := by
  cases hgp : (pollGrpc m.grpc).2 with
  | ready a =>
    cases a with
    | ok u =>
      cases u
      cases hwp : (pollWeb m.web).2 with
      | ready b =>
        cases b with
        | ok v => cases v; simp [Multiplexer.poll_ready, hgp, hwp, Poll.map_err, pollTry]
        | error e => simp [Multiplexer.poll_ready, hgp, hwp, Poll.map_err, pollTry]
      | pending => simp [Multiplexer.poll_ready, hgp, hwp, Poll.map_err, pollTry]
    | error e => simp [Multiplexer.poll_ready, hgp, Poll.map_err, pollTry]
  | pending =>
    cases hwp : (pollWeb m.web).2 with
    | ready b =>
      cases b <;> simp [Multiplexer.poll_ready, hgp, hwp, Poll.map_err, pollTry]
    | pending => simp [Multiplexer.poll_ready, hgp, hwp, Poll.map_err, pollTry]

theorem mux_poll_ready_pending {Grpc Web εg εw : Type}
    (pollGrpc : Grpc → Grpc × Poll (Except εg Unit))
    (pollWeb : Web → Web × Poll (Except εw Unit))
    (cg : εg → BoxedError) (cw : εw → BoxedError) (m : Multiplexer Grpc Web)
    (hg : ∀ e', (pollGrpc m.grpc).2 ≠ .ready (.error e'))
    (hw : ∀ e', (pollWeb m.web).2 ≠ .ready (.error e'))
    (hp : (pollGrpc m.grpc).2 = .pending ∨ (pollWeb m.web).2 = .pending) :
    (Multiplexer.poll_ready pollGrpc pollWeb cg cw m).2 = .pending := by
  cases hgp : (pollGrpc m.grpc).2 with
  | ready a =>
    cases a with
    | ok u =>
      cases hwp : (pollWeb m.web).2 with
      | ready b =>
        cases b with
        | ok v => rw [hgp] at hp; rw [hwp] at hp; rcases hp with h | h <;> cases h
        | error e => exact absurd hwp (hw e)
      | pending => simp [Multiplexer.poll_ready, hgp, hwp, Poll.map_err, pollTry]
    | error e' => exact absurd hgp (hg e')
  | pending =>
    cases hwp : (pollWeb m.web).2 with
    | ready b =>
      cases b with
      | ok v => simp [Multiplexer.poll_ready, hgp, hwp, Poll.map_err, pollTry]
      | error e => exact absurd hwp (hw e)
    | pending => simp [Multiplexer.poll_ready, hgp, hwp, Poll.map_err, pollTry]

theorem make_poll_ready_grpc_error {MG MW εg εw : Type}
    (pollGrpc : MG → MG × Poll (Except εg Unit))
    (pollWeb : MW → MW × Poll (Except εw Unit))
    (cg : εg → BoxedError) (cw : εw → BoxedError) (mk : MakeMultiplexer MG MW)
    (e : εg) (hg : (pollGrpc mk.make_grpc).2 = .ready (.error e)) :
    MakeMultiplexer.poll_ready pollGrpc pollWeb cg cw mk
      = ({ mk with make_grpc := (pollGrpc mk.make_grpc).1 }, .ready (.error (cg e))) := by
  simp [MakeMultiplexer.poll_ready, hg, Poll.map_err, pollTry]

theorem make_poll_ready_web_error {MG MW εg εw : Type}
    (pollGrpc : MG → MG × Poll (Except εg Unit))
    (pollWeb : MW → MW × Poll (Except εw Unit))
    (cg : εg → BoxedError) (cw : εw → BoxedError) (mk : MakeMultiplexer MG MW)
    (hg : ∀ e', (pollGrpc mk.make_grpc).2 ≠ .ready (.error e'))
    (e : εw) (hw : (pollWeb mk.make_web).2 = .ready (.error e)) :
    MakeMultiplexer.poll_ready pollGrpc pollWeb cg cw mk
      = ({ make_grpc := (pollGrpc mk.make_grpc).1, make_web := (pollWeb mk.make_web).1 },
          .ready (.error (cw e))) := by
  cases hgp : (pollGrpc mk.make_grpc).2 with
  | ready a =>
    cases a with
    | ok u => simp [MakeMultiplexer.poll_ready, hgp, hw, Poll.map_err, pollTry]
    | error e' => exact absurd hgp (hg e')
  | pending => simp [MakeMultiplexer.poll_ready, hgp, hw, Poll.map_err, pollTry]

theorem make_poll_ready_state_no_grpc_error {MG MW εg εw : Type}
    (pollGrpc : MG → MG × Poll (Except εg Unit))
    (pollWeb : MW → MW × Poll (Except εw Unit))
    (cg : εg → BoxedError) (cw : εw → BoxedError) (mk : MakeMultiplexer MG MW)
    (hg : ∀ e', (pollGrpc mk.make_grpc).2 ≠ .ready (.error e')) :
    (MakeMultiplexer.poll_ready pollGrpc pollWeb cg cw mk).1
      = { make_grpc := (pollGrpc mk.make_grpc).1, make_web := (pollWeb mk.make_web).1 } := by
  cases hgp : (pollGrpc mk.make_grpc).2 with
  | ready a =>
    cases a with
    | ok u =>
      cases hwp : (pollWeb mk.make_web).2 with
      | ready b =>
        cases b <;> simp [MakeMultiplexer.poll_ready, hgp, hwp, Poll.map_err, pollTry]
      | pending => simp [MakeMultiplexer.poll_ready, hgp, hwp, Poll.map_err, pollTry]
    | error e' => exact absurd hgp (hg e')
  | pending =>
    cases hwp : (pollWeb mk.make_web).2 with
    | ready b =>
      cases b <;> simp [MakeMultiplexer.poll_ready, hgp, hwp, Poll.map_err, pollTry]
    | pending => simp [MakeMultiplexer.poll_ready, hgp, hwp, Poll.map_err, pollTry]

theorem make_poll_ready_ready_iff {MG MW εg εw : Type}
    (pollGrpc : MG → MG × Poll (Except εg Unit))
    (pollWeb : MW → MW × Poll (Except εw Unit))
    (cg : εg → BoxedError) (cw : εw → BoxedError) (mk : MakeMultiplexer MG MW) :
    (MakeMultiplexer.poll_ready pollGrpc pollWeb cg cw mk).2 = .ready (.ok ())
      ↔ (pollGrpc mk.make_grpc).2 = .ready (.ok ())
        ∧ (pollWeb mk.make_web).2 = .ready (.ok ()) := by
  cases hgp : (pollGrpc mk.make_grpc).2 with
  | ready a =>
    cases a with
    | ok u =>
      cases u
      cases hwp : (pollWeb mk.make_web).2 with
      | ready b =>
        cases b with
        | ok v => cases v; simp [MakeMultiplexer.poll_ready, hgp, hwp, Poll.map_err, pollTry]
        | error e => simp [MakeMultiplexer.poll_ready, hgp, hwp, Poll.map_err, pollTry]
      | pending => simp [MakeMultiplexer.poll_ready, hgp, hwp, Poll.map_err, pollTry]
    | error e => simp [MakeMultiplexer.poll_ready, hgp, Poll.map_err, pollTry]
  | pending =>
    cases hwp : (pollWeb mk.make_web).2 with
    | ready b =>
      cases b <;> simp [MakeMultiplexer.poll_ready, hgp, hwp, Poll.map_err, pollTry]
    | pending => simp [MakeMultiplexer.poll_ready, hgp, hwp, Poll.map_err, pollTry]

theorem make_poll_ready_pending {MG MW εg εw : Type}
    (pollGrpc : MG → MG × Poll (Except εg Unit))
    (pollWeb : MW → MW × Poll (Except εw Unit))
    (cg : εg → BoxedError) (cw : εw → BoxedError) (mk : MakeMultiplexer MG MW)
    (hg : ∀ e', (pollGrpc mk.make_grpc).2 ≠ .ready (.error e'))
    (hw : ∀ e', (pollWeb mk.make_web).2 ≠ .ready (.error e'))
    (hp : (pollGrpc mk.make_grpc).2 = .pending ∨ (pollWeb mk.make_web).2 = .pending) :
    (MakeMultiplexer.poll_ready pollGrpc pollWeb cg cw mk).2 = .pending := by
  cases hgp : (pollGrpc mk.make_grpc).2 with
  | ready a =>
    cases a with
    | ok u =>
      cases hwp : (pollWeb mk.make_web).2 with
      | ready b =>
        cases b with
        | ok v => rw [hgp] at hp; rw [hwp] at hp; rcases hp with h | h <;> cases h
        | error e => exact absurd hwp (hw e)
      | pending => simp [MakeMultiplexer.poll_ready, hgp, hwp, Poll.map_err, pollTry]
    | error e' => exact absurd hgp (hg e')
  | pending =>
    cases hwp : (pollWeb mk.make_web).2 with
    | ready b =>
      cases b with
      | ok v => simp [MakeMultiplexer.poll_ready, hgp, hwp, Poll.map_err, pollTry]
      | error e => exact absurd hwp (hw e)
    | pending => simp [MakeMultiplexer.poll_ready, hgp, hwp, Poll.map_err, pollTry]

/-- Claim C2: the composed `poll_ready` of `Multiplexer` and of
`MakeMultiplexer` is ready-ok iff both inner checks are ready-ok; a
grpc-side error is surfaced with its converted message, a web-side error
is surfaced with its converted message whenever the grpc side did not
error, and when neither side errors and at least one is pending the
composition is pending. -/
theorem c2_poll_ready_composes_both_sides {Grpc Web εg εw MG MW εmg εmw : Type}
    (pollGrpc : Grpc → Grpc × Poll (Except εg Unit))
    (pollWeb : Web → Web × Poll (Except εw Unit))
    (cg : εg → BoxedError) (cw : εw → BoxedError) (m : Multiplexer Grpc Web)
    (pollMG : MG → MG × Poll (Except εmg Unit))
    (pollMW : MW → MW × Poll (Except εmw Unit))
    (cmg : εmg → BoxedError) (cmw : εmw → BoxedError) (mk : MakeMultiplexer MG MW) :
    ((Multiplexer.poll_ready pollGrpc pollWeb cg cw m).2 = .ready (.ok ())
      ↔ (pollGrpc m.grpc).2 = .ready (.ok ()) ∧ (pollWeb m.web).2 = .ready (.ok ()))
    ∧ (∀ e, (pollGrpc m.grpc).2 = .ready (.error e) →
        (Multiplexer.poll_ready pollGrpc pollWeb cg cw m).2 = .ready (.error (cg e)))
    ∧ (∀ e, (∀ e', (pollGrpc m.grpc).2 ≠ .ready (.error e')) →
        (pollWeb m.web).2 = .ready (.error e) →
        (Multiplexer.poll_ready pollGrpc pollWeb cg cw m).2 = .ready (.error (cw e)))
    ∧ ((∀ e', (pollGrpc m.grpc).2 ≠ .ready (.error e')) →
        (∀ e', (pollWeb m.web).2 ≠ .ready (.error e')) →
        ((pollGrpc m.grpc).2 = .pending ∨ (pollWeb m.web).2 = .pending) →
        (Multiplexer.poll_ready pollGrpc pollWeb cg cw m).2 = .pending)
    ∧ ((MakeMultiplexer.poll_ready pollMG pollMW cmg cmw mk).2 = .ready (.ok ())
      ↔ (pollMG mk.make_grpc).2 = .ready (.ok ())
        ∧ (pollMW mk.make_web).2 = .ready (.ok ()))
    ∧ (∀ e, (pollMG mk.make_grpc).2 = .ready (.error e) →
        (MakeMultiplexer.poll_ready pollMG pollMW cmg cmw mk).2 = .ready (.error (cmg e)))
    ∧ (∀ e, (∀ e', (pollMG mk.make_grpc).2 ≠ .ready (.error e')) →
        (pollMW mk.make_web).2 = .ready (.error e) →
        (MakeMultiplexer.poll_ready pollMG pollMW cmg cmw mk).2 = .ready (.error (cmw e)))
    ∧ ((∀ e', (pollMG mk.make_grpc).2 ≠ .ready (.error e')) →
        (∀ e', (pollMW mk.make_web).2 ≠ .ready (.error e')) →
        ((pollMG mk.make_grpc).2 = .pending ∨ (pollMW mk.make_web).2 = .pending) →
        (MakeMultiplexer.poll_ready pollMG pollMW cmg cmw mk).2 = .pending) := by
  refine ⟨mux_poll_ready_ready_iff pollGrpc pollWeb cg cw m, ?_, ?_,
    mux_poll_ready_pending pollGrpc pollWeb cg cw m,
    make_poll_ready_ready_iff pollMG pollMW cmg cmw mk, ?_, ?_,
    make_poll_ready_pending pollMG pollMW cmg cmw mk⟩
  · intro e hg
    rw [mux_poll_ready_grpc_error pollGrpc pollWeb cg cw m e hg]
  · intro e hg hw
    rw [mux_poll_ready_web_error pollGrpc pollWeb cg cw m hg e hw]
  · intro e hg
    rw [make_poll_ready_grpc_error pollMG pollMW cmg cmw mk e hg]
  · intro e hg hw
    rw [make_poll_ready_web_error pollMG pollMW cmg cmw mk hg e hw]

/-- Witness for C2 at concrete services: the always-erroring readiness
check of the repository test suite paired with an always-ready one, in
both branch positions and for both composed types. -/
theorem c2_poll_ready_composes_both_sides_witness :
    (Multiplexer.poll_ready errReadySvc countingSvc id id (Multiplexer.new () 0)).2
      = .ready (.error "This service always error")
    ∧ (Multiplexer.poll_ready countingSvc errReadySvc id id (Multiplexer.new 0 ())).2
      = .ready (.error "This service always error")
    ∧ (MakeMultiplexer.poll_ready errReadySvc countingSvc id id (MakeMultiplexer.new () 0)).2
      = .ready (.error "This service always error")
    ∧ (MakeMultiplexer.poll_ready countingSvc errReadySvc id id (MakeMultiplexer.new 0 ())).2
      = .ready (.error "This service always error") := by
  refine ⟨?_, ?_, ?_, ?_⟩
  · exact (c2_poll_ready_composes_both_sides errReadySvc countingSvc id id
      (Multiplexer.new () 0) errReadySvc countingSvc id id (MakeMultiplexer.new () 0)).2.1
      "This service always error" rfl
  · exact (c2_poll_ready_composes_both_sides countingSvc errReadySvc id id
      (Multiplexer.new 0 ()) countingSvc errReadySvc id id (MakeMultiplexer.new 0 ())).2.2.1
      "This service always error" (by intro e' h; simp [countingSvc] at h) rfl
  · exact (c2_poll_ready_composes_both_sides errReadySvc countingSvc id id
      (Multiplexer.new () 0) errReadySvc countingSvc id id
      (MakeMultiplexer.new () 0)).2.2.2.2.2.1 "This service always error" rfl
  · exact (c2_poll_ready_composes_both_sides countingSvc errReadySvc id id
      (Multiplexer.new 0 ()) countingSvc errReadySvc id id
      (MakeMultiplexer.new 0 ())).2.2.2.2.2.2.1 "This service always error"
      (by intro e' h; simp [countingSvc] at h) rfl

/-- Claim C10: in both composed `poll_ready` functions the grpc side is
checked first, and a grpc-side error is returned converted while the web
side is left untouched (its `poll_ready` is not invoked, so its state in
the result is the input state). -/
theorem c10_grpc_error_short_circuits {Grpc Web εg εw MG MW εmg εmw : Type}
    (pollGrpc : Grpc → Grpc × Poll (Except εg Unit))
    (pollWeb : Web → Web × Poll (Except εw Unit))
    (cg : εg → BoxedError) (cw : εw → BoxedError) (m : Multiplexer Grpc Web)
    (pollMG : MG → MG × Poll (Except εmg Unit))
    (pollMW : MW → MW × Poll (Except εmw Unit))
    (cmg : εmg → BoxedError) (cmw : εmw → BoxedError) (mk : MakeMultiplexer MG MW)
    (e : εg) (hg : (pollGrpc m.grpc).2 = .ready (.error e))
    (e2 : εmg) (hg2 : (pollMG mk.make_grpc).2 = .ready (.error e2)) :
    Multiplexer.poll_ready pollGrpc pollWeb cg cw m
      = ({ m with grpc := (pollGrpc m.grpc).1 }, .ready (.error (cg e)))
    ∧ MakeMultiplexer.poll_ready pollMG pollMW cmg cmw mk
      = ({ mk with make_grpc := (pollMG mk.make_grpc).1 }, .ready (.error (cmg e2))) :=
  ⟨mux_poll_ready_grpc_error pollGrpc pollWeb cg cw m e hg,
    make_poll_ready_grpc_error pollMG pollMW cmg cmw mk e2 hg2⟩

/-- Witness for C10: an always-erroring grpc side paired with a counting
web side; the web counter stays at its input value. -/
theorem c10_grpc_error_short_circuits_witness :
    Multiplexer.poll_ready errReadySvc countingSvc id id (Multiplexer.new () 0)
      = (Multiplexer.new () 0, .ready (.error "This service always error"))
    ∧ MakeMultiplexer.poll_ready errReadySvc countingSvc id id (MakeMultiplexer.new () 0)
      = (MakeMultiplexer.new () 0, .ready (.error "This service always error")) :=
  c10_grpc_error_short_circuits errReadySvc countingSvc id id (Multiplexer.new () 0)
    errReadySvc countingSvc id id (MakeMultiplexer.new () 0)
    "This service always error" rfl "This service always error" rfl

/-- Counterexample to C4 as stated: with an always-erroring grpc-side
check and a web-side check that increments a counter whenever it is
invoked, one call to the composed `poll_ready` (of either type) leaves
the web counter at 0, not at the value an invocation would produce: the
web-side readiness check was not invoked. -/
theorem c4_counterexample_web_not_invoked :
    (Multiplexer.poll_ready errReadySvc countingSvc id id (Multiplexer.new () 0)).1.web
      ≠ (countingSvc 0).1
    ∧ (MakeMultiplexer.poll_ready errReadySvc countingSvc id id
        (MakeMultiplexer.new () 0)).1.make_web ≠ (countingSvc 0).1 := by
  refine ⟨?_, ?_⟩ <;> decide

/-- Claim C4 as amended: both inner readiness checks are invoked whenever
the grpc-side check does not return an error (their state transitions are
both applied); when the grpc-side check errors, the composition returns
without invoking the web-side check. -/
theorem c4_amended_no_short_circuit_unless_grpc_errors
    {Grpc Web εg εw MG MW εmg εmw : Type}
    (pollGrpc : Grpc → Grpc × Poll (Except εg Unit))
    (pollWeb : Web → Web × Poll (Except εw Unit))
    (cg : εg → BoxedError) (cw : εw → BoxedError) (m : Multiplexer Grpc Web)
    (pollMG : MG → MG × Poll (Except εmg Unit))
    (pollMW : MW → MW × Poll (Except εmw Unit))
    (cmg : εmg → BoxedError) (cmw : εmw → BoxedError) (mk : MakeMultiplexer MG MW) :
    ((∀ e, (pollGrpc m.grpc).2 ≠ .ready (.error e)) →
      (Multiplexer.poll_ready pollGrpc pollWeb cg cw m).1
        = { grpc := (pollGrpc m.grpc).1, web := (pollWeb m.web).1 })
    ∧ (∀ e, (pollGrpc m.grpc).2 = .ready (.error e) →
      (Multiplexer.poll_ready pollGrpc pollWeb cg cw m).1
        = { m with grpc := (pollGrpc m.grpc).1 })
    ∧ ((∀ e, (pollMG mk.make_grpc).2 ≠ .ready (.error e)) →
      (MakeMultiplexer.poll_ready pollMG pollMW cmg cmw mk).1
        = { make_grpc := (pollMG mk.make_grpc).1, make_web := (pollMW mk.make_web).1 })
    ∧ (∀ e, (pollMG mk.make_grpc).2 = .ready (.error e) →
      (MakeMultiplexer.poll_ready pollMG pollMW cmg cmw mk).1
        = { mk with make_grpc := (pollMG mk.make_grpc).1 }) := by
  refine ⟨?_, ?_, ?_, ?_⟩
  · intro hg
    exact mux_poll_ready_state_no_grpc_error pollGrpc pollWeb cg cw m hg
  · intro e hg
    rw [mux_poll_ready_grpc_error pollGrpc pollWeb cg cw m e hg]
  · intro hg
    exact make_poll_ready_state_no_grpc_error pollMG pollMW cmg cmw mk hg
  · intro e hg
    rw [make_poll_ready_grpc_error pollMG pollMW cmg cmw mk e hg]

/-- Witness for the amended C4: two counting checks both advance when the
grpc side does not error; with an erroring grpc side the web counter is
untouched. -/
theorem c4_amended_no_short_circuit_unless_grpc_errors_witness :
    (Multiplexer.poll_ready countingSvc countingSvc id id (Multiplexer.new 0 0)).1
      = Multiplexer.new 1 1
    ∧ (Multiplexer.poll_ready errReadySvc countingSvc id id (Multiplexer.new () 0)).1
      = Multiplexer.new () 0
    ∧ (MakeMultiplexer.poll_ready countingSvc countingSvc id id (MakeMultiplexer.new 0 0)).1
      = MakeMultiplexer.new 1 1
    ∧ (MakeMultiplexer.poll_ready errReadySvc countingSvc id id (MakeMultiplexer.new () 0)).1
      = MakeMultiplexer.new () 0 := by
  refine ⟨?_, ?_, ?_, ?_⟩
  · exact (c4_amended_no_short_circuit_unless_grpc_errors countingSvc countingSvc id id
      (Multiplexer.new 0 0) countingSvc countingSvc id id (MakeMultiplexer.new 0 0)).1
      (by intro e h; simp [countingSvc] at h)
  · exact (c4_amended_no_short_circuit_unless_grpc_errors errReadySvc countingSvc id id
      (Multiplexer.new () 0) errReadySvc countingSvc id id (MakeMultiplexer.new () 0)).2.1
      "This service always error" rfl
  · exact (c4_amended_no_short_circuit_unless_grpc_errors countingSvc countingSvc id id
      (Multiplexer.new 0 0) countingSvc countingSvc id id (MakeMultiplexer.new 0 0)).2.2.1
      (by intro e h; simp [countingSvc] at h)
  · exact (c4_amended_no_short_circuit_unless_grpc_errors errReadySvc countingSvc id id
      (Multiplexer.new () 0) errReadySvc countingSvc id id
      (MakeMultiplexer.new () 0)).2.2.2 "This service always error" rfl

theorem isGrpcRequest_iff {B : Type} (req : Request B) :
    isGrpcRequest req = true
      ↔ ∃ v, headerGet req.headers "content-type" = some v
          ∧ applicationGrpc.isPrefixOf v = true := by
  unfold isGrpcRequest
  cases hv : headerGet req.headers "content-type" with
  | none => simp [hv]
  | some v => simp [hv]

/-- Claim C1: `Multiplexer::call` routes the request to the grpc handler
iff a content-type header is present whose value has byte-prefix
`application/grpc`, passing the request to exactly that handler's `call`;
the other service is untouched (its state is unchanged and the result
does not depend on it at all). -/
theorem c1_call_routes_to_exactly_one_handler {Grpc Web B GF WF : Type}
    (callGrpc callGrpc' : Grpc → Request B → Grpc × GF)
    (callWeb callWeb' : Web → Request B → Web × WF)
    (m : Multiplexer Grpc Web) (req : Request B) :
    ((Multiplexer.call callGrpc callWeb m req).2.isGrpc = true
      ↔ ∃ v, headerGet req.headers "content-type" = some v
          ∧ applicationGrpc.isPrefixOf v = true)
    ∧ (isGrpcRequest req = true →
        Multiplexer.call callGrpc callWeb m req
          = ({ m with grpc := (callGrpc m.grpc req).1 }, .Grpc ((callGrpc m.grpc req).2))
        ∧ Multiplexer.call callGrpc callWeb' m req = Multiplexer.call callGrpc callWeb m req)
    ∧ (isGrpcRequest req = false →
        Multiplexer.call callGrpc callWeb m req
          = ({ m with web := (callWeb m.web req).1 }, .Web ((callWeb m.web req).2))
        ∧ Multiplexer.call callGrpc' callWeb m req = Multiplexer.call callGrpc callWeb m req) := by
  refine ⟨?_, ?_, ?_⟩
  · rw [← isGrpcRequest_iff]
    cases h : isGrpcRequest req <;>
      simp [Multiplexer.call, h, EncapsulatedFuture.isGrpc]
  · intro h
    constructor <;> simp [Multiplexer.call, h]
  · intro h
    constructor <;> simp [Multiplexer.call, h]

/-- Witness for C1: a request with `Content-Type: application/grpc+proto`
is routed to the grpc handler and one with `Content-Type: text/html` to
the web handler. -/
theorem c1_call_routes_to_exactly_one_handler_witness :
    Multiplexer.call unitSvcCall unitSvcCall (Multiplexer.new () ()) grpcReq
      = (Multiplexer.new () (), .Grpc ())
    ∧ Multiplexer.call unitSvcCall unitSvcCall (Multiplexer.new () ()) htmlReq
      = (Multiplexer.new () (), .Web ()) := by
  constructor
  · exact ((c1_call_routes_to_exactly_one_handler unitSvcCall unitSvcCall unitSvcCall
      unitSvcCall (Multiplexer.new () ()) grpcReq).2.1 (by decide)).1
  · exact ((c1_call_routes_to_exactly_one_handler unitSvcCall unitSvcCall unitSvcCall
      unitSvcCall (Multiplexer.new () ()) htmlReq).2.2 (by decide)).1

/-- Claim C6: `EncapsulatedFuture::poll` polls only the inner future
selected at construction (the result is independent of the other side's
poll function and the variant is preserved); on success it rewraps the
response with status and headers unchanged and the body wrapped in the
matching `EncapsulatedBody` variant, and on failure it converts the inner
error. -/
theorem c6_future_poll_maps_selected_side {GF WF GB WB εg εw : Type}
    (pollGrpc pollGrpc' : GF → GF × Poll (Except εg (Response GB)))
    (pollWeb pollWeb' : WF → WF × Poll (Except εw (Response WB)))
    (cg : εg → BoxedError) (cw : εw → BoxedError) (f : GF) (w : WF) :
    (∀ resp, (pollGrpc f).2 = .ready (.ok resp) →
      EncapsulatedFuture.poll pollGrpc pollWeb cg cw (.Grpc f)
        = (.Grpc (pollGrpc f).1,
            .ready (.ok
              { status := resp.status, headers := resp.headers, body := .Grpc resp.body })))
    ∧ (∀ e, (pollGrpc f).2 = .ready (.error e) →
      EncapsulatedFuture.poll pollGrpc pollWeb cg cw (.Grpc f)
        = (.Grpc (pollGrpc f).1, .ready (.error (cg e))))
    ∧ ((pollGrpc f).2 = .pending →
      EncapsulatedFuture.poll pollGrpc pollWeb cg cw (.Grpc f)
        = (.Grpc (pollGrpc f).1, .pending))
    ∧ EncapsulatedFuture.poll pollGrpc pollWeb' cg cw (.Grpc f)
        = EncapsulatedFuture.poll pollGrpc pollWeb cg cw (.Grpc f)
    ∧ (∀ resp, (pollWeb w).2 = .ready (.ok resp) →
      EncapsulatedFuture.poll pollGrpc pollWeb cg cw (.Web w)
        = (.Web (pollWeb w).1,
            .ready (.ok
              { status := resp.status, headers := resp.headers, body := .Web resp.body })))
    ∧ (∀ e, (pollWeb w).2 = .ready (.error e) →
      EncapsulatedFuture.poll pollGrpc pollWeb cg cw (.Web w)
        = (.Web (pollWeb w).1, .ready (.error (cw e))))
    ∧ ((pollWeb w).2 = .pending →
      EncapsulatedFuture.poll pollGrpc pollWeb cg cw (.Web w)
        = (.Web (pollWeb w).1, .pending))
    ∧ EncapsulatedFuture.poll pollGrpc' pollWeb cg cw (.Web w)
        = EncapsulatedFuture.poll pollGrpc pollWeb cg cw (.Web w) := by
  refine ⟨?_, ?_, ?_, rfl, ?_, ?_, ?_, rfl⟩
  · intro resp h
    simp [EncapsulatedFuture.poll, h, Poll.map_ok, Poll.map_err,
      EncapsulatedBody.map_grpc, Response.map]
  · intro e h
    simp [EncapsulatedFuture.poll, h, Poll.map_ok, Poll.map_err]
  · intro h
    simp [EncapsulatedFuture.poll, h, Poll.map_ok, Poll.map_err]
  · intro resp h
    simp [EncapsulatedFuture.poll, h, Poll.map_ok, Poll.map_err,
      EncapsulatedBody.map_web, Response.map]
  · intro e h
    simp [EncapsulatedFuture.poll, h, Poll.map_ok, Poll.map_err]
  · intro h
    simp [EncapsulatedFuture.poll, h, Poll.map_ok, Poll.map_err]

/-- Witness for C6: a ready successful grpc-side future produces the
wrapped response; a failing web-side future produces the converted
error. -/
theorem c6_future_poll_maps_selected_side_witness :
    EncapsulatedFuture.poll TimedFut.poll TimedFut.poll id id
        (.Grpc okRespFut : EncapsulatedFuture (TimedFut (Except String (Response Unit)))
          (TimedFut (Except String (Response Unit))))
      = (.Grpc okRespFut,
          .ready (.ok
            { status := 200, headers := [("server", bytesOfAscii "x")], body := .Grpc () }))
    ∧ EncapsulatedFuture.poll TimedFut.poll TimedFut.poll id id
        (.Web errRespFut : EncapsulatedFuture (TimedFut (Except String (Response Unit)))
          (TimedFut (Except String (Response Unit))))
      = (.Web errRespFut, .ready (.error "handler failed")) := by
  constructor
  · exact (c6_future_poll_maps_selected_side TimedFut.poll TimedFut.poll TimedFut.poll
      TimedFut.poll id id okRespFut errRespFut).1
      { status := 200, headers := [("server", bytesOfAscii "x")], body := () } rfl
  · exact (c6_future_poll_maps_selected_side TimedFut.poll TimedFut.poll TimedFut.poll
      TimedFut.poll id id okRespFut errRespFut).2.2.2.2.2.1 "handler failed" rfl

theorem join_poll_not_pending_both_done {FA FB A B : Type}
    (pollA : FA → FA × Poll A) (pollB : FB → FB × Poll B) (j : Join FA FB A B)
    (h : (Join.poll pollA pollB j).2 ≠ .pending) :
    (Join.poll pollA pollB j).1.left.isDone = true
    ∧ (Join.poll pollA pollB j).1.right.isDone = true := by
  revert h
  unfold Join.poll
  cases hl : MaybeDone.poll pollA j.left <;> cases hr : MaybeDone.poll pollB j.right <;>
    simp [MaybeDone.isDone]

theorem makeFuture_poll_components {FG FW Grpc Web εg εw : Type}
    (pollGrpc : FG → FG × Poll (Except εg Grpc))
    (pollWeb : FW → FW × Poll (Except εw Web))
    (fut : MakeMultiplexerFuture FG FW (Except εg Grpc) (Except εw Web)) :
    (MakeMultiplexerFuture.poll pollGrpc pollWeb fut).1.inner
      = (Join.poll pollGrpc pollWeb fut.inner).1
    ∧ ((MakeMultiplexerFuture.poll pollGrpc pollWeb fut).2 = .pending
      ↔ (Join.poll pollGrpc pollWeb fut.inner).2 = .pending) := by
  unfold MakeMultiplexerFuture.poll
  rcases hj : Join.poll pollGrpc pollWeb fut.inner with ⟨inner', p⟩
  cases p with
  | pending => simp
  | ready ab =>
    rcases ab with ⟨a, b⟩
    cases a <;> cases b <;> simp

/-- Claim C7: `MakeMultiplexer::call` passes the (duplicated) target to
both inner factories and starts both build futures; the resulting
`MakeMultiplexerFuture` is a join, not a race: whenever its poll result
is not pending, both inner futures have already settled, regardless of
which side finished first. -/
theorem c7_build_joins_both_factories {MG MW Target FG FW Grpc Web εg εw : Type}
    (callGrpc : MG → Target → MG × FG) (callWeb : MW → Target → MW × FW)
    (mk : MakeMultiplexer MG MW) (target : Target)
    (pollGrpc : FG → FG × Poll (Except εg Grpc))
    (pollWeb : FW → FW × Poll (Except εw Web))
    (fut : MakeMultiplexerFuture FG FW (Except εg Grpc) (Except εw Web)) :
    ((MakeMultiplexer.call callGrpc callWeb mk target :
        MakeMultiplexer MG MW ×
          MakeMultiplexerFuture FG FW (Except εg Grpc) (Except εw Web))
      = ({ make_grpc := (callGrpc mk.make_grpc target).1,
            make_web := (callWeb mk.make_web target).1 },
          MakeMultiplexerFuture.new (callGrpc mk.make_grpc target).2
            (callWeb mk.make_web target).2))
    ∧ ((MakeMultiplexerFuture.poll pollGrpc pollWeb fut).2 ≠ .pending →
        (MakeMultiplexerFuture.poll pollGrpc pollWeb fut).1.inner.left.isDone = true
        ∧ (MakeMultiplexerFuture.poll pollGrpc pollWeb fut).1.inner.right.isDone = true) := by
  refine ⟨rfl, ?_⟩
  intro hnp
  have hc := makeFuture_poll_components pollGrpc pollWeb fut
  have hjp : (Join.poll pollGrpc pollWeb fut.inner).2 ≠ .pending :=
    fun h => hnp (hc.2.mpr h)
  have hd := join_poll_not_pending_both_done pollGrpc pollWeb fut.inner hjp
  rw [hc.1]
  exact hd

/-- Witness for C7: with both build futures immediately successful the
joined future resolves with both sides settled. -/
theorem c7_build_joins_both_factories_witness :
    (MakeMultiplexerFuture.poll TimedFut.poll TimedFut.poll joinFutOkOk).1.inner.left.isDone
      = true
    ∧ (MakeMultiplexerFuture.poll TimedFut.poll TimedFut.poll
        joinFutOkOk).1.inner.right.isDone = true :=
  (c7_build_joins_both_factories
    (fun (u : Unit) (_ : Unit) =>
      (u, ({ delay := 0, value := .ok "grpc handler" } : TimedFut (Except String String))))
    (fun (u : Unit) (_ : Unit) =>
      (u, ({ delay := 0, value := .ok "web handler" } : TimedFut (Except String String))))
    (MakeMultiplexer.new () ()) () TimedFut.poll TimedFut.poll joinFutOkOk).2 (by decide)

/-- Claim C3 concerns the single-failure path of
`MakeMultiplexerFuture::poll`.  The source arms returning the failing
side's error are commented out and the live arm is `_ => todo!()`, so a
join that settles with exactly one failure panics instead of yielding the
error; this theorem evaluates the embedded poll at both single-failure
inputs (all futures settled on the first poll) and at the all-success
input. -/
theorem c3_single_failure_hits_todo_panic :
    (MakeMultiplexerFuture.poll TimedFut.poll TimedFut.poll grpcOkWebErrFut).2
      = .panicked
    ∧ (MakeMultiplexerFuture.poll TimedFut.poll TimedFut.poll grpcErrWebOkFut).2
      = .panicked
    ∧ (MakeMultiplexerFuture.poll TimedFut.poll TimedFut.poll grpcOkWebErrFut).1.inner.left.isDone
      = true
    ∧ (MakeMultiplexerFuture.poll TimedFut.poll TimedFut.poll grpcOkWebErrFut).1.inner.right.isDone
      = true
    ∧ (MakeMultiplexerFuture.poll TimedFut.poll TimedFut.poll joinFutOkOk).2
      = .ready (.ok (Multiplexer.new "grpc handler" "web handler")) :=
  ⟨rfl, rfl, rfl, rfl, rfl⟩

theorem poll_data_fst_isGrpc {GB WB Dg Dw εg εw : Type}
    (pollGrpc : GB → GB × Poll (Option (Except εg Dg)))
    (pollWeb : WB → WB × Poll (Option (Except εw Dw)))
    (cg : εg → BoxedError) (cw : εw → BoxedError)
    (dg : Dg → Bytes) (dw : Dw → Bytes) (b : EncapsulatedBody GB WB) :
    (EncapsulatedBody.poll_data pollGrpc pollWeb cg cw dg dw b).1.isGrpc = b.isGrpc := by
  cases b <;> rfl

theorem iterateBody_isGrpc {GB WB Dg Dw εg εw : Type}
    (pollGrpc : GB → GB × Poll (Option (Except εg Dg)))
    (pollWeb : WB → WB × Poll (Option (Except εw Dw)))
    (cg : εg → BoxedError) (cw : εw → BoxedError)
    (dg : Dg → Bytes) (dw : Dw → Bytes) (n : Nat) (b : EncapsulatedBody GB WB) :
    (iterateBody pollGrpc pollWeb cg cw dg dw n b).isGrpc = b.isGrpc := by
  induction n generalizing b with
  | zero => rfl
  | succ n ih =>
    rw [iterateBody, ih, poll_data_fst_isGrpc]

/-- Claim C8: an `EncapsulatedBody` constructed as one variant forwards
every `poll_data` and `poll_trailers` call to that same underlying body:
the variant is invariant under any number of polls, each step rewraps the
same side's updated body, and the functions of the unselected side are
never consulted. -/
theorem c8_encapsulated_body_variant_is_fixed {GB WB Dg Dw εg εw : Type}
    (pollGrpc pollGrpc' : GB → GB × Poll (Option (Except εg Dg)))
    (pollWeb pollWeb' : WB → WB × Poll (Option (Except εw Dw)))
    (tGrpc tGrpc' : GB → GB × Poll (Except εg (Option HeaderMap)))
    (tWeb tWeb' : WB → WB × Poll (Except εw (Option HeaderMap)))
    (cg : εg → BoxedError) (cw : εw → BoxedError)
    (dg : Dg → Bytes) (dw : Dw → Bytes)
    (n : Nat) (b : EncapsulatedBody GB WB) (g : GB) (w : WB) :
    (iterateBody pollGrpc pollWeb cg cw dg dw n b).isGrpc = b.isGrpc
    ∧ (EncapsulatedBody.poll_data pollGrpc pollWeb cg cw dg dw b).1.isGrpc = b.isGrpc
    ∧ (EncapsulatedBody.poll_trailers tGrpc tWeb cg cw b).1.isGrpc = b.isGrpc
    ∧ (EncapsulatedBody.poll_data pollGrpc pollWeb cg cw dg dw (.Grpc g)).1 = .Grpc (pollGrpc g).1
    ∧ (EncapsulatedBody.poll_data pollGrpc pollWeb cg cw dg dw (.Web w)).1 = .Web (pollWeb w).1
    ∧ EncapsulatedBody.poll_data pollGrpc pollWeb' cg cw dg dw (.Grpc g)
        = EncapsulatedBody.poll_data pollGrpc pollWeb cg cw dg dw (.Grpc g)
    ∧ EncapsulatedBody.poll_data pollGrpc' pollWeb cg cw dg dw (.Web w)
        = EncapsulatedBody.poll_data pollGrpc pollWeb cg cw dg dw (.Web w)
    ∧ EncapsulatedBody.poll_trailers tGrpc tWeb' cg cw (.Grpc g)
        = EncapsulatedBody.poll_trailers tGrpc tWeb cg cw (.Grpc g)
    ∧ EncapsulatedBody.poll_trailers tGrpc' tWeb cg cw (.Web w)
        = EncapsulatedBody.poll_trailers tGrpc tWeb cg cw (.Web w) := by
  refine ⟨iterateBody_isGrpc pollGrpc pollWeb cg cw dg dw n b, ?_, ?_, rfl, rfl, rfl, rfl, rfl, rfl⟩
  · cases b <;> rfl
  · cases b <;> rfl

/-- Claim C9: in either variant and any state, `is_end_stream` is `false`
and `size_hint` is the default hint, independently of the inner body. -/
theorem c9_default_is_end_stream_and_size_hint {GB WB : Type} (b b' : EncapsulatedBody GB WB) :
    b.is_end_stream = false
    ∧ b.size_hint = { lower := 0, upper := none }
    ∧ b.is_end_stream = b'.is_end_stream
    ∧ b.size_hint = b'.size_hint :=
  ⟨rfl, rfl, rfl, rfl⟩

theorem drain_grpc_list {Dg Dw εg εw : Type} (cg : εg → BoxedError) (cw : εw → BoxedError)
    (dg : Dg → Bytes) (dw : Dw → Bytes) (cs : List (Except εg Dg))
    (t : Except εg (Option HeaderMap)) :
    drainEncapsulated ListBody.poll_data (@ListBody.poll_data Dw εw) cg cw dg dw
        (cs.length + 1) (.Grpc { chunks := cs, trailerResult := t })
      = cs.map (fun c => (c.map dg).mapError cg) := by
  induction cs with
  | nil => rfl
  | cons c rest ih =>
    cases c with
    | ok d =>
      simpa [drainEncapsulated, EncapsulatedBody.poll_data, ListBody.poll_data,
        pollOptionMapOk, pollOptionMapErr, Except.map, Except.mapError] using ih
    | error e =>
      simpa [drainEncapsulated, EncapsulatedBody.poll_data, ListBody.poll_data,
        pollOptionMapOk, pollOptionMapErr, Except.map, Except.mapError] using ih

theorem drain_web_list {Dg Dw εg εw : Type} (cg : εg → BoxedError) (cw : εw → BoxedError)
    (dg : Dg → Bytes) (dw : Dw → Bytes) (ds : List (Except εw Dw))
    (u : Except εw (Option HeaderMap)) :
    drainEncapsulated (@ListBody.poll_data Dg εg) (ListBody.poll_data) cg cw dg dw
        (ds.length + 1) (.Web { chunks := ds, trailerResult := u })
      = ds.map (fun c => (c.map dw).mapError cw) := by
  induction ds with
  | nil => rfl
  | cons c rest ih =>
    cases c with
    | ok d =>
      simpa [drainEncapsulated, EncapsulatedBody.poll_data, ListBody.poll_data,
        pollOptionMapOk, pollOptionMapErr, Except.map, Except.mapError] using ih
    | error e =>
      simpa [drainEncapsulated, EncapsulatedBody.poll_data, ListBody.poll_data,
        pollOptionMapOk, pollOptionMapErr, Except.map, Except.mapError] using ih

/-- Claim C5: draining an `EncapsulatedBody` over a body containing chunk
results `cs` yields exactly those chunks in order, each data chunk
converted into `Bytes` and each error converted into the boxed error, for
both variants; `poll_trailers` forwards the underlying trailer result
unchanged (errors converted). -/
theorem c5_body_roundtrip {Dg Dw εg εw : Type} (cg : εg → BoxedError) (cw : εw → BoxedError)
    (dg : Dg → Bytes) (dw : Dw → Bytes)
    (cs : List (Except εg Dg)) (ds : List (Except εw Dw))
    (t : Except εg (Option HeaderMap)) (u : Except εw (Option HeaderMap)) :
    drainEncapsulated ListBody.poll_data ListBody.poll_data cg cw dg dw
        (cs.length + 1) (.Grpc { chunks := cs, trailerResult := t })
      = cs.map (fun c => (c.map dg).mapError cg)
    ∧ drainEncapsulated ListBody.poll_data ListBody.poll_data cg cw dg dw
        (ds.length + 1) (.Web { chunks := ds, trailerResult := u })
      = ds.map (fun c => (c.map dw).mapError cw)
    ∧ (EncapsulatedBody.poll_trailers (@ListBody.poll_trailers Dg εg) (@ListBody.poll_trailers Dw εw)
        cg cw (.Grpc { chunks := cs, trailerResult := t })).2 = .ready (t.mapError cg)
    ∧ (EncapsulatedBody.poll_trailers (@ListBody.poll_trailers Dg εg) (@ListBody.poll_trailers Dw εw)
        cg cw (.Web { chunks := ds, trailerResult := u })).2 = .ready (u.mapError cw) := by
  refine ⟨drain_grpc_list cg cw dg dw cs t, drain_web_list cg cw dg dw ds u, ?_, ?_⟩
  · cases t <;> rfl
  · cases u <;> rfl

end Mth
